import Mathlib

/-!
Shallow embedding of the banking domain model of `src/app.py`
(classes `AccountType`, `TransactionType`, `Address`, `Person`,
`Transaction`, `BankAccount`, `Bank`) together with proofs of the
specification's testable properties.

Modelling conventions:
* Python float amounts are embedded as exact rationals (`ℚ`).
* `datetime.datetime.now()` is embedded as an explicit integer timestamp
  parameter `now : ℤ`, measured in days so that
  `now - timedelta(days=days)` becomes `now - days`.
* `random.randint` draws are an explicit stream `draws : ℕ → ℕ`
  (resp. a single `rnd : ℕ` for transaction-id suffixes).
* The unbounded `while True` retry loop of `_generate_account_number`
  is given explicit fuel; `none` stands for fuel exhaustion (the Python
  loop would simply keep drawing).
* `raise ValueError(msg)` is embedded as `Except.error msg` with the
  exact message strings of the source.
* In-place mutation of a `BankAccount` stored in `Bank.accounts` is
  embedded as a functional update of the bank's account map; the object
  aliasing in `Bank.transfer_between_accounts` (source and destination
  are the same Python object when the two account numbers coincide) is
  reproduced by re-reading the destination after the source write-back.
-/

namespace Banking

/-- `class AccountType(Enum)` of app.py. -/
inductive AccountType where
  | savings
  | checking
  | business
  | student
deriving DecidableEq

/-- `class TransactionType(Enum)` of app.py. -/
inductive TransactionType where
  | deposit
  | withdrawal
  | transfer
  | interest
deriving DecidableEq

/-- `@dataclass Address` of app.py. -/
structure Address where
  street : String
  city : String
  state : String
  zip_code : String
  country : String := "USA"
deriving DecidableEq

/-- `class Person` of app.py. -/
structure Person where
  first_name : String
  last_name : String
  email : String
  phone : String
  address : Address
  date_of_birth : String
deriving DecidableEq

/-- `class Transaction` of app.py: an immutable ledger record.
`timestamp` is the creation time passed in by the caller; `status` is
always "completed". -/
structure Transaction where
  transaction_id : String
  account_number : String
  transaction_type : TransactionType
  amount : ℚ
  description : String
  timestamp : ℤ
  status : String
deriving DecidableEq

/-- `Transaction.__init__`: builds the record with the current time and
status "completed". -/
def mkTransaction (tid acct : String) (ty : TransactionType) (amount : ℚ)
    (descr : String) (now : ℤ) : Transaction :=
  { transaction_id := tid, account_number := acct, transaction_type := ty,
    amount := amount, description := descr, timestamp := now,
    status := "completed" }

/-- `class BankAccount` of app.py (state fields only). -/
structure BankAccount where
  account_number : String
  account_holder : Person
  account_type : AccountType
  balance : ℚ
  interest_rate : ℚ
  is_active : Bool
  date_opened : ℤ
  transactions : List Transaction
deriving DecidableEq

/-- `BankAccount._get_interest_rate`: the `rates` dict lookup.  All four
enum values are keys, so the `0.01` default of `rates.get` is dead code. -/
def get_interest_rate (ty : AccountType) : ℚ :=
  match ty with
  | AccountType.savings => mkRat 2 100
  | AccountType.checking => mkRat 1 1000
  | AccountType.business => mkRat 15 1000
  | AccountType.student => mkRat 25 1000

/-- `BankAccount.__init__`: balance is the initial balance, the account
starts active with an empty transaction list. -/
def mkBankAccount (num : String) (holder : Person) (ty : AccountType)
    (initial_balance : ℚ) (now : ℤ) : BankAccount :=
  { account_number := num, account_holder := holder, account_type := ty,
    balance := initial_balance, interest_rate := get_interest_rate ty,
    is_active := true, date_opened := now, transactions := [] }

/-- `BankAccount._generate_transaction_id`: "TXN" + timestamp + 4-digit
random suffix (the suffix draw `rnd` is passed in explicitly). -/
def generate_transaction_id (now : ℤ) (rnd : ℕ) : String :=
  "TXN" ++ toString now ++ toString rnd

/-- `BankAccount.deposit`: rejects non-positive amounts, then inactive
accounts, then adds to the balance and appends a DEPOSIT transaction. -/
def BankAccount.deposit (a : BankAccount) (amount : ℚ) (descr : String)
    (now : ℤ) (rnd : ℕ) : Except String BankAccount :=
  if amount ≤ 0 then Except.error "Deposit amount must be positive"
  else if !a.is_active then Except.error "Account is not active"
  else Except.ok
    { a with
      balance := a.balance + amount,
      transactions := a.transactions ++
        [mkTransaction (generate_transaction_id now rnd) a.account_number
          TransactionType.deposit amount descr now] }

/-- `BankAccount.withdraw`: rejects non-positive amounts, inactive
accounts and amounts above the balance, then subtracts from the balance
and appends a WITHDRAWAL transaction. -/
def BankAccount.withdraw (a : BankAccount) (amount : ℚ) (descr : String)
    (now : ℤ) (rnd : ℕ) : Except String BankAccount :=
  if amount ≤ 0 then Except.error "Withdrawal amount must be positive"
  else if !a.is_active then Except.error "Account is not active"
  else if a.balance < amount then Except.error "Insufficient funds"
  else Except.ok
    { a with
      balance := a.balance - amount,
      transactions := a.transactions ++
        [mkTransaction (generate_transaction_id now rnd) a.account_number
          TransactionType.withdrawal amount descr now] }

/-- `BankAccount.get_transaction_history(days)`: keeps the transactions
whose timestamp is at least `now - days` (no upper cutoff), preserving
order. -/
def BankAccount.get_transaction_history (a : BankAccount) (days now : ℤ) :
    List Transaction :=
  a.transactions.filter (fun t => decide (now - days ≤ t.timestamp))

/-- `BankAccount.get_balance`. -/
def BankAccount.get_balance (a : BankAccount) : ℚ := a.balance

/-- `class Bank` of app.py: account map keyed by account number, customer
map keyed by email. -/
structure Bank where
  name : String
  routing_number : String
  accounts : String → Option BankAccount
  customers : String → Option Person

/-- `Bank.__init__`: empty maps. -/
def mkBank (name routing : String) : Bank :=
  { name := name, routing_number := routing,
    accounts := fun _ => none, customers := fun _ => none }

/-- Write-back of a (mutated) account object into the bank's map. -/
def Bank.setAccount (b : Bank) (n : String) (a : BankAccount) : Bank :=
  { b with accounts := fun k => if k = n then some a else b.accounts k }

/-- The body of `Bank._generate_account_number`: starting at stream
index `i`, draw until the drawn 8-digit number (as a decimal string) is
not a key of `accounts`.  Fuel bounds the unbounded Python loop. -/
def genAccountNumAux (b : Bank) (draws : ℕ → ℕ) : ℕ → ℕ → Option String
  | _, 0 => none
  | i, fuel + 1 =>
    let num := Nat.repr (draws i)
    match b.accounts num with
    | none => some num
    | some _ => genAccountNumAux b draws (i + 1) fuel

/-- `Bank._generate_account_number`. -/
def Bank.generate_account_number (b : Bank) (draws : ℕ → ℕ) (fuel : ℕ) :
    Option String :=
  genAccountNumAux b draws 0 fuel

/-- Result of `Bank.create_account`: a validation error, fuel exhaustion
of the number-generation loop, or the new bank state with the created
account. -/
inductive CreateResult where
  | validationErr (msg : String)
  | outOfFuel
  | created (b : Bank) (a : BankAccount)

/-- `Bank.create_account`: rejects a negative initial deposit, generates
a fresh account number, stores the new account under it and the holder
under their email (silently overwriting any previous customer record). -/
def Bank.create_account (b : Bank) (holder : Person) (ty : AccountType)
    (initial_deposit : ℚ) (now : ℤ) (draws : ℕ → ℕ) (fuel : ℕ) :
    CreateResult :=
  if initial_deposit < 0 then
    CreateResult.validationErr "Initial deposit cannot be negative"
  else
    match b.generate_account_number draws fuel with
    | none => CreateResult.outOfFuel
    | some num =>
      let account := mkBankAccount num holder ty initial_deposit now
      CreateResult.created
        { b with
          accounts := fun k => if k = num then some account else b.accounts k,
          customers := fun k =>
            if k = holder.email then some holder else b.customers k }
        account

/-- `Bank.get_account`. -/
def Bank.get_account (b : Bank) (n : String) : Option BankAccount :=
  b.accounts n

/-- The deposit HTTP handler's effect on the bank: look the account up,
deposit into it, write the mutated object back.  On failure the bank is
returned unchanged. -/
def Bank.deposit_to (b : Bank) (n : String) (amount : ℚ) (descr : String)
    (now : ℤ) (rnd : ℕ) : Bank × Except String Bool :=
  match b.accounts n with
  | none => (b, Except.error "Account not found")
  | some a =>
    match a.deposit amount descr now rnd with
    | Except.error e => (b, Except.error e)
    | Except.ok a2 => (b.setAccount n a2, Except.ok true)

/-- The withdraw HTTP handler's effect on the bank. -/
def Bank.withdraw_from (b : Bank) (n : String) (amount : ℚ) (descr : String)
    (now : ℤ) (rnd : ℕ) : Bank × Except String Bool :=
  match b.accounts n with
  | none => (b, Except.error "Account not found")
  | some a =>
    match a.withdraw amount descr now rnd with
    | Except.error e => (b, Except.error e)
    | Except.ok a2 => (b.setAccount n a2, Except.ok true)

/-- `Bank.transfer_between_accounts` composed with `BankAccount.transfer`:
both account numbers must be present; the source withdrawal is written
back before the destination deposit, and the destination is re-read so
that a self-transfer operates on the already-withdrawn object exactly as
Python's aliasing does.  A deposit failure after a successful withdrawal
leaves the withdrawal in place (the source's non-atomicity).  The `descr`
parameter is accepted and ignored, as in the source, which substitutes
its own "Transfer to/from" descriptions. -/
def Bank.transfer_between_accounts (b : Bank) (from_acct to_acct : String)
    (amount : ℚ) (descr : String) (now : ℤ) (rnd1 rnd2 : ℕ) :
    Bank × Except String Bool :=
  match b.accounts from_acct with
  | none => (b, Except.error "Source account not found")
  | some source =>
    match b.accounts to_acct with
    | none => (b, Except.error "Destination account not found")
    | some dest0 =>
      match source.withdraw amount ("Transfer to " ++ dest0.account_number)
          now rnd1 with
      | Except.error e => (b, Except.error e)
      | Except.ok source1 =>
        match (if to_acct = from_acct then source1 else dest0).deposit amount
            ("Transfer from " ++ source.account_number) now rnd2 with
        | Except.error e => (b.setAccount from_acct source1, Except.error e)
        | Except.ok dest1 =>
          ((b.setAccount from_acct source1).setAccount to_acct dest1,
            Except.ok true)

/-- One client-visible operation on the bank. -/
inductive BankOp where
  | createOp (holder : Person) (ty : AccountType) (initial_deposit : ℚ)
  | depositOp (n : String) (amount : ℚ) (descr : String)
  | withdrawOp (n : String) (amount : ℚ) (descr : String)
  | transferOp (src dst : String) (amount : ℚ) (descr : String)

/-- Per-operation environment: the wall-clock time and the random draws
consumed by the operation. -/
structure OpEnv where
  now : ℤ
  rnd1 : ℕ
  rnd2 : ℕ
  draws : ℕ → ℕ
  fuel : ℕ

/-- The bank state after one operation, whether it succeeds or fails
(failed operations leave exactly the state their partial execution
produced, which for everything but a transfer's late deposit failure is
the original state). -/
def Bank.step (b : Bank) (op : BankOp) (env : OpEnv) : Bank :=
  match op with
  | BankOp.createOp holder ty d =>
    match b.create_account holder ty d env.now env.draws env.fuel with
    | CreateResult.created b2 _ => b2
    | _ => b
  | BankOp.depositOp n amt ds => (b.deposit_to n amt ds env.now env.rnd1).1
  | BankOp.withdrawOp n amt ds => (b.withdraw_from n amt ds env.now env.rnd1).1
  | BankOp.transferOp s t amt ds =>
    (b.transfer_between_accounts s t amt ds env.now env.rnd1 env.rnd2).1

/-- The bank state after a sequence of operations. -/
def Bank.run (b : Bank) : List (BankOp × OpEnv) → Bank
  | [] => b
  | (op, env) :: rest => (b.step op env).run rest

/-- Sum of the amounts of the DEPOSIT transactions of a ledger. -/
def depositSum (ts : List Transaction) : ℚ :=
  (List.map Transaction.amount
    (ts.filter (fun t => decide (t.transaction_type = TransactionType.deposit)))).sum

/-- Sum of the amounts of the WITHDRAWAL transactions of a ledger. -/
def withdrawalSum (ts : List Transaction) : ℚ :=
  (List.map Transaction.amount
    (ts.filter (fun t => decide (t.transaction_type = TransactionType.withdrawal)))).sum

/-- Net ledger value of an account's transaction list. -/
def ledgerSum (ts : List Transaction) : ℚ := depositSum ts - withdrawalSum ts

/-! ### Characterizations of the success cases of deposit and withdraw -/

theorem deposit_eq_ok_iff (a : BankAccount) (amount : ℚ) (descr : String)
    (now : ℤ) (rnd : ℕ) (a2 : BankAccount) :
    a.deposit amount descr now rnd = Except.ok a2 ↔
      0 < amount ∧ a.is_active = true ∧
        a2 = { a with
          balance := a.balance + amount,
          transactions := a.transactions ++
            [mkTransaction (generate_transaction_id now rnd) a.account_number
              TransactionType.deposit amount descr now] } := by
  unfold BankAccount.deposit
  split_ifs with h1 h2
  · simp [not_lt.2 h1]
  · simp only [Bool.not_eq_true'] at h2
    simp [h2]
  · simp only [Bool.not_eq_true'] at h2
    simp only [Bool.not_eq_false] at h2
    simp [not_le.1 h1, h2, eq_comm]

theorem withdraw_eq_ok_iff (a : BankAccount) (amount : ℚ) (descr : String)
    (now : ℤ) (rnd : ℕ) (a2 : BankAccount) :
    a.withdraw amount descr now rnd = Except.ok a2 ↔
      0 < amount ∧ a.is_active = true ∧ amount ≤ a.balance ∧
        a2 = { a with
          balance := a.balance - amount,
          transactions := a.transactions ++
            [mkTransaction (generate_transaction_id now rnd) a.account_number
              TransactionType.withdrawal amount descr now] } := by
  unfold BankAccount.withdraw
  split_ifs with h1 h2 h3
  · simp [not_lt.2 h1]
  · simp only [Bool.not_eq_true'] at h2
    simp [h2]
  · simp [not_le.2 h3]
  · simp only [Bool.not_eq_true', Bool.not_eq_false] at h2
    simp [not_le.1 h1, h2, not_lt.1 h3, eq_comm]

/-! ### Ledger-sum arithmetic -/

theorem depositSum_append (ts us : List Transaction) :
    depositSum (ts ++ us) = depositSum ts + depositSum us := by
  simp [depositSum, List.filter_append]

theorem withdrawalSum_append (ts us : List Transaction) :
    withdrawalSum (ts ++ us) = withdrawalSum ts + withdrawalSum us := by
  simp [withdrawalSum, List.filter_append]

theorem ledgerSum_append (ts us : List Transaction) :
    ledgerSum (ts ++ us) = ledgerSum ts + ledgerSum us := by
  simp only [ledgerSum, depositSum_append, withdrawalSum_append]
  ring

theorem ledgerSum_deposit_single (tid acct : String) (amount : ℚ)
    (descr : String) (now : ℤ) :
    ledgerSum [mkTransaction tid acct TransactionType.deposit amount descr now]
      = amount := by
  simp [ledgerSum, depositSum, withdrawalSum, mkTransaction]

theorem ledgerSum_withdrawal_single (tid acct : String) (amount : ℚ)
    (descr : String) (now : ℤ) :
    ledgerSum
      [mkTransaction tid acct TransactionType.withdrawal amount descr now]
      = -amount := by
  simp [ledgerSum, depositSum, withdrawalSum, mkTransaction]

/-! ### How one operation can change one stored account -/

/-- Relation between an account's state before and after an operation
touches it: non-negativity of the balance is preserved, the gap between
the balance and the net ledger value is preserved, the old transaction
list is a prefix of the new one, and the activity flag is unchanged. -/
def AcctEvolves (a a2 : BankAccount) : Prop :=
  (0 ≤ a.balance → 0 ≤ a2.balance) ∧
  a2.balance - ledgerSum a2.transactions
    = a.balance - ledgerSum a.transactions ∧
  a.transactions <+: a2.transactions ∧
  a2.is_active = a.is_active

theorem acctEvolves_refl (a : BankAccount) : AcctEvolves a a :=
  ⟨fun h => h, rfl, List.prefix_refl _, rfl⟩

theorem acctEvolves_trans {a b c : BankAccount}
    (h1 : AcctEvolves a b) (h2 : AcctEvolves b c) : AcctEvolves a c :=
  ⟨fun h => h2.1 (h1.1 h), by rw [h2.2.1, h1.2.1],
    h1.2.2.1.trans h2.2.2.1, h2.2.2.2.trans h1.2.2.2⟩

theorem deposit_evolves {a a2 : BankAccount} {amount : ℚ} {descr : String}
    {now : ℤ} {rnd : ℕ}
    (h : a.deposit amount descr now rnd = Except.ok a2) :
    AcctEvolves a a2 ∧ 0 < amount := by
  rw [deposit_eq_ok_iff] at h
  obtain ⟨hpos, hact, rfl⟩ := h
  refine ⟨⟨fun h0 => by positivity, ?_, List.prefix_append _ _, rfl⟩, hpos⟩
  simp only [ledgerSum_append, ledgerSum_deposit_single]
  ring

theorem withdraw_evolves {a a2 : BankAccount} {amount : ℚ} {descr : String}
    {now : ℤ} {rnd : ℕ}
    (h : a.withdraw amount descr now rnd = Except.ok a2) :
    AcctEvolves a a2 ∧ 0 < amount ∧ amount ≤ a.balance := by
  rw [withdraw_eq_ok_iff] at h
  obtain ⟨hpos, hact, hle, rfl⟩ := h
  refine ⟨⟨fun _ => by simpa using hle, ?_, List.prefix_append _ _, rfl⟩,
    hpos, hle⟩
  simp only [ledgerSum_append, ledgerSum_withdrawal_single]
  ring

/-! ### Length of the decimal representation of a drawn account number -/

theorem toDigitsCore_len (b : ℕ) (hb : 2 ≤ b) :
    ∀ (f n : ℕ) (l : List Char), n < b ^ f → 0 < f →
      (Nat.toDigitsCore b f n l).length = Nat.log b n + 1 + l.length := by
  intro f
  induction f with
  | zero => intro n l _ hf; cases hf
  | succ f ih =>
    intro n l hn _
    have hbpos : 0 < b := by omega
    rw [Nat.toDigitsCore]
    by_cases hz : n / b = 0
    · have hnb : n < b := (Nat.div_eq_zero_iff hbpos).1 hz
      have hlog : Nat.log b n = 0 := Nat.log_eq_zero_iff.2 (Or.inl hnb)
      simp [hz, hlog]
      omega
    · have hbn : b ≤ n := by
        rcases Nat.lt_or_ge n b with hlt | hge
        · exact absurd ((Nat.div_eq_zero_iff hbpos).2 hlt) hz
        · exact hge
      have hfpos : 0 < f := by
        rcases Nat.eq_zero_or_pos f with rfl | hf
        · rw [pow_one] at hn; omega
        · exact hf
      have hdiv : n / b < b ^ f := by
        rw [Nat.div_lt_iff_lt_mul hbpos]
        rw [Nat.pow_succ] at hn
        exact hn
      have hrec := ih (n / b) (Nat.digitChar (n % b) :: l) hdiv hfpos
      have hlogpos : 0 < Nat.log b n := Nat.log_pos (by omega) hbn
      have hlogdiv : Nat.log b (n / b) = Nat.log b n - 1 := Nat.log_div_base b n
      simp only [hz, if_neg, ite_false]
      rw [hrec, hlogdiv]
      simp only [List.length_cons]
      omega

theorem repr_len_eq_log (n : ℕ) : (Nat.repr n).length = Nat.log 10 n + 1 := by
  have hlt : n < 10 ^ (n + 1) :=
    lt_of_lt_of_le (Nat.lt_pow_self (by norm_num) n)
      (Nat.pow_le_pow_right (by norm_num) (Nat.le_succ n))
  have h := toDigitsCore_len 10 (by norm_num) (n + 1) n [] hlt (Nat.succ_pos n)
  simpa [Nat.repr, Nat.toDigits, String.length, List.asString] using h

theorem repr_len_eight (m : ℕ) (h1 : 10000000 ≤ m) (h2 : m ≤ 99999999) :
    (Nat.repr m).length = 8 := by
  rw [repr_len_eq_log]
  have hlog : Nat.log 10 m = 7 :=
    Nat.log_eq_of_pow_le_of_lt_pow (by norm_num; omega) (by norm_num; omega)
  omega

/-! ### Bank map plumbing -/

theorem setAccount_self (b : Bank) (n : String) (a : BankAccount) :
    (b.setAccount n a).accounts n = some a := by
  simp [Bank.setAccount]

theorem setAccount_other (b : Bank) (n k : String) (a : BankAccount)
    (h : k ≠ n) : (b.setAccount n a).accounts k = b.accounts k := by
  simp [Bank.setAccount, h]

theorem genAccountNumAux_spec (b : Bank) (draws : ℕ → ℕ) :
    ∀ (fuel i : ℕ) (s : String),
      genAccountNumAux b draws i fuel = some s →
      b.accounts s = none ∧ ∃ j, s = Nat.repr (draws j) := by
  intro fuel
  induction fuel with
  | zero => intro i s h; simp [genAccountNumAux] at h
  | succ fuel ih =>
    intro i s h
    rw [genAccountNumAux] at h
    revert h
    cases hl : b.accounts (Nat.repr (draws i)) with
    | none =>
      intro h
      simp only [Option.some.injEq] at h
      exact h ▸ ⟨hl, i, rfl⟩
    | some a => exact fun h => ih (i + 1) s h

theorem generate_account_number_spec (b : Bank) (draws : ℕ → ℕ) (fuel : ℕ)
    (s : String) (h : b.generate_account_number draws fuel = some s) :
    b.accounts s = none ∧ ∃ j, s = Nat.repr (draws j) :=
  genAccountNumAux_spec b draws fuel 0 s h

theorem create_account_created {b b2 : Bank} {holder : Person}
    {ty : AccountType} {d : ℚ} {now : ℤ} {draws : ℕ → ℕ} {fuel : ℕ}
    {acct : BankAccount}
    (h : b.create_account holder ty d now draws fuel
      = CreateResult.created b2 acct) :
    0 ≤ d ∧
    acct = mkBankAccount acct.account_number holder ty d now ∧
    b.accounts acct.account_number = none ∧
    b2.accounts acct.account_number = some acct ∧
    (∀ n, n ≠ acct.account_number → b2.accounts n = b.accounts n) ∧
    b2.customers = fun k =>
      if k = holder.email then some holder else b.customers k := by
  unfold Bank.create_account at h
  split_ifs at h with hneg
  revert h
  cases hg : b.generate_account_number draws fuel with
  | none => intro h; cases h
  | some num =>
    intro h
    obtain ⟨hfresh, -⟩ := generate_account_number_spec b draws fuel num hg
    injection h with hb ha
    subst hb
    subst ha
    refine ⟨not_lt.1 hneg, rfl, hfresh, ?_, ?_, rfl⟩
    · simp [mkBankAccount]
    · intro n hn
      simp only [mkBankAccount] at hn
      simp [hn]

/-! ### Evolution of each stored account through one bank operation -/

theorem transfer_acct_evolves (b : Bank) (src dst : String) (amt : ℚ)
    (ds : String) (now : ℤ) (r1 r2 : ℕ) (n : String) (a : BankAccount)
    (h : b.accounts n = some a) :
    ∃ a2,
      (b.transfer_between_accounts src dst amt ds now r1 r2).1.accounts n
        = some a2 ∧ AcctEvolves a a2 := by
  unfold Bank.transfer_between_accounts
  cases hs : b.accounts src with
  | none => exact ⟨a, h, acctEvolves_refl a⟩
  | some source =>
  dsimp only
  cases hd : b.accounts dst with
  | none => exact ⟨a, h, acctEvolves_refl a⟩
  | some dest0 =>
  dsimp only
  cases hw : source.withdraw amt ("Transfer to " ++ dest0.account_number)
      now r1 with
  | error e => exact ⟨a, h, acctEvolves_refl a⟩
  | ok source1 =>
  dsimp only
  have hwev := (withdraw_evolves hw).1
  cases hdep : (if dst = src then source1 else dest0).deposit amt
      ("Transfer from " ++ source.account_number) now r2 with
  | error e =>
    dsimp only
    by_cases hn : n = src
    · subst hn
      have has : a = source := by
        rw [h] at hs
        exact Option.some.injEq a source ▸ hs
      subst has
      exact ⟨source1, setAccount_self b n source1, hwev⟩
    · exact ⟨a, by rw [setAccount_other b src n source1 hn]; exact h,
        acctEvolves_refl a⟩
  | ok dest1 =>
    dsimp only
    by_cases hn2 : n = dst
    · subst hn2
      have had : a = dest0 := by
        rw [h] at hd
        exact Option.some.injEq a dest0 ▸ hd
      subst had
      refine ⟨dest1, setAccount_self _ n dest1, ?_⟩
      by_cases hds : n = src
      · subst hds
        rw [if_pos rfl] at hdep
        have has : a = source := by
          rw [h] at hs
          exact Option.some.injEq a source ▸ hs
        subst has
        exact acctEvolves_trans hwev (deposit_evolves hdep).1
      · rw [if_neg hds] at hdep
        exact (deposit_evolves hdep).1
    · rw [setAccount_other _ dst n dest1 hn2]
      by_cases hn : n = src
      · subst hn
        have has : a = source := by
          rw [h] at hs
          exact Option.some.injEq a source ▸ hs
        subst has
        exact ⟨source1, setAccount_self b n source1, hwev⟩
      · exact ⟨a, by rw [setAccount_other b src n source1 hn]; exact h,
          acctEvolves_refl a⟩

theorem transfer_accounts_none (b : Bank) (src dst : String) (amt : ℚ)
    (ds : String) (now : ℤ) (r1 r2 : ℕ) (n : String)
    (h : b.accounts n = none) :
    (b.transfer_between_accounts src dst amt ds now r1 r2).1.accounts n
      = none := by
  unfold Bank.transfer_between_accounts
  cases hs : b.accounts src with
  | none => exact h
  | some source =>
  dsimp only
  cases hd : b.accounts dst with
  | none => exact h
  | some dest0 =>
  dsimp only
  have hns : n ≠ src := fun he => by rw [he, hs] at h; cases h
  have hnd : n ≠ dst := fun he => by rw [he, hd] at h; cases h
  cases hw : source.withdraw amt ("Transfer to " ++ dest0.account_number)
      now r1 with
  | error e => exact h
  | ok source1 =>
  dsimp only
  cases hdep : (if dst = src then source1 else dest0).deposit amt
      ("Transfer from " ++ source.account_number) now r2 with
  | error e =>
    dsimp only
    rw [setAccount_other b src n source1 hns]
    exact h
  | ok dest1 =>
    dsimp only
    rw [setAccount_other _ dst n dest1 hnd,
      setAccount_other b src n source1 hns]
    exact h

theorem deposit_to_acct_evolves (b : Bank) (m : String) (amt : ℚ)
    (ds : String) (now : ℤ) (rnd : ℕ) (n : String) (a : BankAccount)
    (h : b.accounts n = some a) :
    ∃ a2, (b.deposit_to m amt ds now rnd).1.accounts n = some a2 ∧
      AcctEvolves a a2 := by
  unfold Bank.deposit_to
  cases hm : b.accounts m with
  | none => exact ⟨a, h, acctEvolves_refl a⟩
  | some x =>
  dsimp only
  cases hd : x.deposit amt ds now rnd with
  | error e => exact ⟨a, h, acctEvolves_refl a⟩
  | ok x2 =>
    dsimp only
    by_cases hn : n = m
    · subst hn
      have hax : a = x := by
        rw [h] at hm
        exact Option.some.injEq a x ▸ hm
      subst hax
      exact ⟨x2, setAccount_self b n x2, (deposit_evolves hd).1⟩
    · exact ⟨a, by rw [setAccount_other b m n x2 hn]; exact h,
        acctEvolves_refl a⟩

theorem withdraw_from_acct_evolves (b : Bank) (m : String) (amt : ℚ)
    (ds : String) (now : ℤ) (rnd : ℕ) (n : String) (a : BankAccount)
    (h : b.accounts n = some a) :
    ∃ a2, (b.withdraw_from m amt ds now rnd).1.accounts n = some a2 ∧
      AcctEvolves a a2 := by
  unfold Bank.withdraw_from
  cases hm : b.accounts m with
  | none => exact ⟨a, h, acctEvolves_refl a⟩
  | some x =>
  dsimp only
  cases hd : x.withdraw amt ds now rnd with
  | error e => exact ⟨a, h, acctEvolves_refl a⟩
  | ok x2 =>
    dsimp only
    by_cases hn : n = m
    · subst hn
      have hax : a = x := by
        rw [h] at hm
        exact Option.some.injEq a x ▸ hm
      subst hax
      exact ⟨x2, setAccount_self b n x2, (withdraw_evolves hd).1⟩
    · exact ⟨a, by rw [setAccount_other b m n x2 hn]; exact h,
        acctEvolves_refl a⟩

theorem deposit_to_accounts_none (b : Bank) (m : String) (amt : ℚ)
    (ds : String) (now : ℤ) (rnd : ℕ) (n : String)
    (h : b.accounts n = none) :
    (b.deposit_to m amt ds now rnd).1.accounts n = none := by
  unfold Bank.deposit_to
  cases hm : b.accounts m with
  | none => exact h
  | some x =>
  dsimp only
  have hnm : n ≠ m := fun he => by rw [he, hm] at h; cases h
  cases hd : x.deposit amt ds now rnd with
  | error e => exact h
  | ok x2 =>
    dsimp only
    rw [setAccount_other b m n x2 hnm]
    exact h

theorem withdraw_from_accounts_none (b : Bank) (m : String) (amt : ℚ)
    (ds : String) (now : ℤ) (rnd : ℕ) (n : String)
    (h : b.accounts n = none) :
    (b.withdraw_from m amt ds now rnd).1.accounts n = none := by
  unfold Bank.withdraw_from
  cases hm : b.accounts m with
  | none => exact h
  | some x =>
  dsimp only
  have hnm : n ≠ m := fun he => by rw [he, hm] at h; cases h
  cases hd : x.withdraw amt ds now rnd with
  | error e => exact h
  | ok x2 =>
    dsimp only
    rw [setAccount_other b m n x2 hnm]
    exact h

theorem step_acct_evolves (b : Bank) (op : BankOp) (env : OpEnv)
    (n : String) (a : BankAccount) (h : b.accounts n = some a) :
    ∃ a2, (b.step op env).accounts n = some a2 ∧ AcctEvolves a a2 := by
  unfold Bank.step
  cases op with
  | createOp holder ty d =>
    dsimp only
    cases hc : b.create_account holder ty d env.now env.draws env.fuel with
    | validationErr msg => exact ⟨a, h, acctEvolves_refl a⟩
    | outOfFuel => exact ⟨a, h, acctEvolves_refl a⟩
    | created b2 acct =>
      dsimp only
      obtain ⟨-, -, hfresh, -, hother, -⟩ := create_account_created hc
      have hnn : n ≠ acct.account_number := fun he => by
        rw [he, hfresh] at h; cases h
      exact ⟨a, by rw [hother n hnn]; exact h, acctEvolves_refl a⟩
  | depositOp m amt ds =>
    dsimp only
    exact deposit_to_acct_evolves b m amt ds env.now env.rnd1 n a h
  | withdrawOp m amt ds =>
    dsimp only
    exact withdraw_from_acct_evolves b m amt ds env.now env.rnd1 n a h
  | transferOp s t amt ds =>
    dsimp only
    exact transfer_acct_evolves b s t amt ds env.now env.rnd1 env.rnd2 n a h

theorem step_accounts_cases (b : Bank) (op : BankOp) (env : OpEnv)
    (n : String) (a2 : BankAccount)
    (h2 : (b.step op env).accounts n = some a2) :
    (∃ a, b.accounts n = some a ∧ AcctEvolves a a2) ∨
    (a2.transactions = [] ∧ 0 ≤ a2.balance ∧ a2.is_active = true) := by
  cases h : b.accounts n with
  | some a =>
    obtain ⟨a3, h3, hev⟩ := step_acct_evolves b op env n a h
    have h23 : a2 = a3 := by
      rw [h2] at h3
      exact Option.some.injEq a2 a3 ▸ h3
    exact Or.inl ⟨a, rfl, by rw [h23]; exact hev⟩
  | none =>
    unfold Bank.step at h2
    cases op with
    | createOp holder ty d =>
      dsimp only at h2
      revert h2
      cases hc : b.create_account holder ty d env.now env.draws env.fuel with
      | validationErr msg =>
        intro h2
        dsimp only at h2
        rw [h] at h2
        cases h2
      | outOfFuel =>
        intro h2
        dsimp only at h2
        rw [h] at h2
        cases h2
      | created b2 acct =>
        intro h2
        dsimp only at h2
        obtain ⟨hd0, hmk, -, hatnum, hother, -⟩ := create_account_created hc
        by_cases hn : n = acct.account_number
        · subst hn
          rw [hatnum] at h2
          have ha2 : acct = a2 := Option.some.injEq acct a2 ▸ h2
          subst ha2
          rw [hmk]
          exact Or.inr ⟨rfl, hd0, rfl⟩
        · rw [hother n hn, h] at h2; cases h2
    | depositOp m amt ds =>
      dsimp only at h2
      rw [deposit_to_accounts_none b m amt ds env.now env.rnd1 n h] at h2
      cases h2
    | withdrawOp m amt ds =>
      dsimp only at h2
      rw [withdraw_from_accounts_none b m amt ds env.now env.rnd1 n h] at h2
      cases h2
    | transferOp s t amt ds =>
      dsimp only at h2
      rw [transfer_accounts_none b s t amt ds env.now env.rnd1 env.rnd2 n h]
        at h2
      cases h2

/-! ### Run-level invariants -/

theorem run_acct_evolves (ops : List (BankOp × OpEnv)) :
    ∀ (b : Bank) (n : String) (a : BankAccount), b.accounts n = some a →
      ∃ a2, (b.run ops).accounts n = some a2 ∧ AcctEvolves a a2 := by
  induction ops with
  | nil => exact fun b n a h => ⟨a, h, acctEvolves_refl a⟩
  | cons p rest ih =>
    intro b n a h
    obtain ⟨a1, h1, hev1⟩ := step_acct_evolves b p.1 p.2 n a h
    obtain ⟨a2, h2, hev2⟩ := ih (b.step p.1 p.2) n a1 h1
    exact ⟨a2, h2, acctEvolves_trans hev1 hev2⟩

theorem step_allNonneg (b : Bank) (op : BankOp) (env : OpEnv)
    (hinv : ∀ n a, b.accounts n = some a → 0 ≤ a.balance) :
    ∀ n a2, (b.step op env).accounts n = some a2 → 0 ≤ a2.balance := by
  intro n a2 h2
  rcases step_accounts_cases b op env n a2 h2 with ⟨a, ha, hev⟩ | ⟨-, h0, -⟩
  · exact hev.1 (hinv n a ha)
  · exact h0

theorem run_allNonneg (ops : List (BankOp × OpEnv)) :
    ∀ (b : Bank),
      (∀ n a, b.accounts n = some a → 0 ≤ a.balance) →
      ∀ n a2, (b.run ops).accounts n = some a2 → 0 ≤ a2.balance := by
  induction ops with
  | nil => exact fun b hinv n a2 h2 => hinv n a2 h2
  | cons p rest ih =>
    intro b hinv n a2 h2
    exact ih (b.step p.1 p.2) (step_allNonneg b p.1 p.2 hinv) n a2 h2

/-! ### Success-case equations for deposit and withdraw -/

theorem deposit_ok (a : BankAccount) (amount : ℚ) (descr : String)
    (now : ℤ) (rnd : ℕ) (h1 : 0 < amount) (h2 : a.is_active = true) :
    a.deposit amount descr now rnd = Except.ok
      { a with
        balance := a.balance + amount,
        transactions := a.transactions ++
          [mkTransaction (generate_transaction_id now rnd) a.account_number
            TransactionType.deposit amount descr now] } :=
  (deposit_eq_ok_iff a amount descr now rnd _).2 ⟨h1, h2, rfl⟩

theorem withdraw_ok (a : BankAccount) (amount : ℚ) (descr : String)
    (now : ℤ) (rnd : ℕ) (h1 : 0 < amount) (h2 : a.is_active = true)
    (h3 : amount ≤ a.balance) :
    a.withdraw amount descr now rnd = Except.ok
      { a with
        balance := a.balance - amount,
        transactions := a.transactions ++
          [mkTransaction (generate_transaction_id now rnd) a.account_number
            TransactionType.withdrawal amount descr now] } :=
  (withdraw_eq_ok_iff a amount descr now rnd _).2 ⟨h1, h2, h3, rfl⟩

/-! ### Concrete objects used by the witness instances -/

def wAddress : Address :=
  { street := "1 Main St", city := "Springfield", state := "IL",
    zip_code := "62701" }

def wPerson : Person :=
  { first_name := "Ada", last_name := "Lovelace", email := "ada@example.com",
    phone := "555-0100", address := wAddress, date_of_birth := "1815-12-10" }

def wAcctX : BankAccount := mkBankAccount "11111111" wPerson AccountType.checking 10 0

def wAcctY : BankAccount := mkBankAccount "22222222" wPerson AccountType.savings 5 0

def wBank0 : Bank := mkBank "Digital Bank" "123456789"

def wBank2 : Bank := (wBank0.setAccount "11111111" wAcctX).setAccount "22222222" wAcctY

def wEnv : OpEnv :=
  { now := 0, rnd1 := 1000, rnd2 := 1001, draws := fun _ => 12345678, fuel := 1 }

/-- Extract the account of a successful account-level operation. -/
def okOr (r : Except String BankAccount) (fb : BankAccount) : BankAccount :=
  match r with
  | Except.ok a => a
  | Except.error _ => fb

/-- Extract the bank of a successful `create_account`. -/
def cbank (r : CreateResult) (fb : Bank) : Bank :=
  match r with
  | CreateResult.created b _ => b
  | _ => fb

/-- Extract the account of a successful `create_account`. -/
def cacct (r : CreateResult) (fb : BankAccount) : BankAccount :=
  match r with
  | CreateResult.created _ a => a
  | _ => fb

def wOps1 : List (BankOp × OpEnv) :=
  [(BankOp.createOp wPerson AccountType.savings 500, wEnv),
   (BankOp.depositOp "12345678" 200 "", wEnv),
   (BankOp.withdrawOp "12345678" 100 "", wEnv),
   (BankOp.transferOp "12345678" "12345678" 50 "", wEnv)]

def wAcc1 : BankAccount := ((wBank0.run wOps1).accounts "12345678").getD wAcctX

def wOps9 : List (BankOp × OpEnv) :=
  [(BankOp.depositOp "11111111" 7 "", wEnv),
   (BankOp.withdrawOp "11111111" 2 "", wEnv)]

def wAcc9 : BankAccount := ((wBank2.run wOps9).accounts "11111111").getD wAcctX

def wTx1 : Transaction := mkTransaction "TXNa" "11111111" TransactionType.deposit 7 "" 2

def wTx2 : Transaction := mkTransaction "TXNb" "11111111" TransactionType.withdrawal 3 "" 8

def wAcctH : BankAccount := { wAcctX with transactions := [wTx1, wTx2] }

/-! ### The claims -/

/-- Claim C1: starting from any bank whose accounts all have non-negative
balances (in particular any bank built by `create_account` from
non-negative initial deposits), after any sequence of create, deposit,
withdraw and transfer operations — successful or failed — every stored
account's balance is still non-negative. -/
theorem claim1_balance_nonneg (b : Bank) (ops : List (BankOp × OpEnv))
    (hinv : ∀ n a, b.accounts n = some a → 0 ≤ a.balance) (n : String)
    (a : BankAccount) (h : (b.run ops).accounts n = some a) :
    0 ≤ a.balance :=
  run_allNonneg ops b hinv n a h

theorem claim1_witness :
    (∀ n a, wBank0.accounts n = some a → 0 ≤ a.balance) ∧
    (wBank0.run wOps1).accounts "12345678" = some wAcc1 ∧
    0 ≤ wAcc1.balance := by
  have hinv : ∀ n a, wBank0.accounts n = some a → 0 ≤ a.balance := by
    intro n a h
    simp [wBank0, mkBank] at h
  exact ⟨hinv, by with_unfolding_all rfl,
    claim1_balance_nonneg wBank0 wOps1 hinv "12345678" wAcc1
      (by with_unfolding_all rfl)⟩

/-- Claim C3: withdrawing an amount `A` with `0 < A` and `A` above the
balance from a stored (active — all reachable accounts are active)
account fails with the "Insufficient funds" `ValueError`, and the bank
state, hence the account's balance and transaction list, is returned
exactly unchanged. -/
theorem claim3_insufficient_funds (b : Bank) (n : String) (a : BankAccount)
    (A : ℚ) (ds : String) (now : ℤ) (rnd : ℕ)
    (h : b.accounts n = some a) (hact : a.is_active = true)
    (hA : 0 < A) (hAB : a.balance < A) :
    b.withdraw_from n A ds now rnd = (b, Except.error "Insufficient funds") := by
  have hw : a.withdraw A ds now rnd = Except.error "Insufficient funds" := by
    unfold BankAccount.withdraw
    simp [not_le.2 hA, hact, hAB]
  unfold Bank.withdraw_from
  rw [h]
  dsimp only
  rw [hw]

theorem claim3_witness :
    wBank2.accounts "11111111" = some wAcctX ∧ wAcctX.is_active = true ∧
    0 < (20 : ℚ) ∧ wAcctX.balance < 20 ∧
    wBank2.withdraw_from "11111111" 20 "" 0 1000
      = (wBank2, Except.error "Insufficient funds") :=
  ⟨rfl, rfl, by decide, by decide,
    claim3_insufficient_funds wBank2 "11111111" wAcctX 20 "" 0 1000
      rfl rfl (by decide) (by decide)⟩

/-- Claim C4: for an amount `A ≤ 0`, both deposit and withdraw on a
stored account fail with their "must be positive" `ValueError`, and the
bank state, hence the account's balance and transaction list, is
returned exactly unchanged. -/
theorem claim4_nonpositive_amount (b : Bank) (n : String) (a : BankAccount)
    (A : ℚ) (ds : String) (now : ℤ) (rnd : ℕ)
    (h : b.accounts n = some a) (hA : A ≤ 0) :
    b.deposit_to n A ds now rnd
      = (b, Except.error "Deposit amount must be positive") ∧
    b.withdraw_from n A ds now rnd
      = (b, Except.error "Withdrawal amount must be positive") := by
  constructor
  · have hd : a.deposit A ds now rnd
        = Except.error "Deposit amount must be positive" := by
      unfold BankAccount.deposit
      simp [hA]
    unfold Bank.deposit_to
    rw [h]
    dsimp only
    rw [hd]
  · have hw : a.withdraw A ds now rnd
        = Except.error "Withdrawal amount must be positive" := by
      unfold BankAccount.withdraw
      simp [hA]
    unfold Bank.withdraw_from
    rw [h]
    dsimp only
    rw [hw]

theorem claim4_witness :
    wBank2.accounts "11111111" = some wAcctX ∧ (-2 : ℚ) ≤ 0 ∧
    (wBank2.deposit_to "11111111" (-2) "" 0 1000
        = (wBank2, Except.error "Deposit amount must be positive") ∧
      wBank2.withdraw_from "11111111" (-2) "" 0 1000
        = (wBank2, Except.error "Withdrawal amount must be positive")) :=
  ⟨rfl, by decide,
    claim4_nonpositive_amount wBank2 "11111111" wAcctX (-2) "" 0 1000
      rfl (by decide)⟩

/-- Claim C5: every successful deposit appends exactly one DEPOSIT
transaction of the deposited amount at the end of the list, every
successful withdrawal appends exactly one WITHDRAWAL transaction of the
withdrawn amount at the end, and no bank operation ever removes,
reorders or mutates existing transactions (the old list is always a
prefix of the new one). -/
theorem claim5_append_only :
    (∀ (a : BankAccount) (A : ℚ) (ds : String) (now : ℤ) (rnd : ℕ)
        (a2 : BankAccount),
      a.deposit A ds now rnd = Except.ok a2 →
      ∃ t, a2.transactions = a.transactions ++ [t] ∧
        t.transaction_type = TransactionType.deposit ∧ t.amount = A) ∧
    (∀ (a : BankAccount) (A : ℚ) (ds : String) (now : ℤ) (rnd : ℕ)
        (a2 : BankAccount),
      a.withdraw A ds now rnd = Except.ok a2 →
      ∃ t, a2.transactions = a.transactions ++ [t] ∧
        t.transaction_type = TransactionType.withdrawal ∧ t.amount = A) ∧
    (∀ (b : Bank) (op : BankOp) (env : OpEnv) (n : String)
        (a a2 : BankAccount),
      b.accounts n = some a → (b.step op env).accounts n = some a2 →
      a.transactions <+: a2.transactions) := by
  refine ⟨?_, ?_, ?_⟩
  · intro a A ds now rnd a2 h
    rw [deposit_eq_ok_iff] at h
    obtain ⟨-, -, rfl⟩ := h
    exact ⟨_, rfl, rfl, rfl⟩
  · intro a A ds now rnd a2 h
    rw [withdraw_eq_ok_iff] at h
    obtain ⟨-, -, -, rfl⟩ := h
    exact ⟨_, rfl, rfl, rfl⟩
  · intro b op env n a a2 h h2
    obtain ⟨a3, h3, hev⟩ := step_acct_evolves b op env n a h
    rw [h2] at h3
    have h23 : a2 = a3 := Option.some.injEq a2 a3 ▸ h3
    rw [h23]
    exact hev.2.2.1

theorem claim5_witness :
    (wAcctX.deposit 7 "" 0 1000
        = Except.ok (okOr (wAcctX.deposit 7 "" 0 1000) wAcctX) ∧
      ∃ t, (okOr (wAcctX.deposit 7 "" 0 1000) wAcctX).transactions
          = wAcctX.transactions ++ [t] ∧
        t.transaction_type = TransactionType.deposit ∧ t.amount = 7) ∧
    (wAcctX.withdraw 4 "" 0 1000
        = Except.ok (okOr (wAcctX.withdraw 4 "" 0 1000) wAcctX) ∧
      ∃ t, (okOr (wAcctX.withdraw 4 "" 0 1000) wAcctX).transactions
          = wAcctX.transactions ++ [t] ∧
        t.transaction_type = TransactionType.withdrawal ∧ t.amount = 4) ∧
    (wBank2.accounts "11111111" = some wAcctX ∧
      (wBank2.step (BankOp.depositOp "11111111" 7 "") wEnv).accounts "11111111"
        = some (((wBank2.step (BankOp.depositOp "11111111" 7 "") wEnv).accounts
            "11111111").getD wAcctX) ∧
      wAcctX.transactions <+:
        (((wBank2.step (BankOp.depositOp "11111111" 7 "") wEnv).accounts
            "11111111").getD wAcctX).transactions) :=
  ⟨⟨rfl, claim5_append_only.1 wAcctX 7 "" 0 1000 _ rfl⟩,
    ⟨rfl, claim5_append_only.2.1 wAcctX 4 "" 0 1000 _ rfl⟩,
    ⟨rfl, rfl,
      claim5_append_only.2.2 wBank2 (BankOp.depositOp "11111111" 7 "") wEnv
        "11111111" wAcctX _ rfl rfl⟩⟩

/-- Claim C6: `get_transaction_history days` (a pure function, so the
account is not modified) returns exactly the transactions whose
timestamp is at least `now - days`, as an order-preserving sublist, and
returns the full transaction list whenever `days` reaches back to before
the account was opened (all transactions are dated after the opening
date). -/
theorem claim6_history (a : BankAccount) (days now : ℤ)
    (hts : ∀ t ∈ a.transactions, a.date_opened ≤ t.timestamp) :
    (∀ t, t ∈ a.get_transaction_history days now ↔
      t ∈ a.transactions ∧ now - days ≤ t.timestamp) ∧
    (a.get_transaction_history days now).Sublist a.transactions ∧
    (now - days ≤ a.date_opened →
      a.get_transaction_history days now = a.transactions) := by
  refine ⟨?_, ?_, ?_⟩
  · intro t
    simp [BankAccount.get_transaction_history, List.mem_filter]
  · exact List.filter_sublist _
  · intro hage
    unfold BankAccount.get_transaction_history
    apply List.filter_eq_self.2
    intro t ht
    exact decide_eq_true (le_trans hage (hts t ht))

theorem claim6_witness :
    (∀ t ∈ wAcctH.transactions, wAcctH.date_opened ≤ t.timestamp) ∧
    ((∀ t, t ∈ wAcctH.get_transaction_history 30 10 ↔
        t ∈ wAcctH.transactions ∧ 10 - 30 ≤ t.timestamp) ∧
      (wAcctH.get_transaction_history 30 10).Sublist wAcctH.transactions ∧
      ((10 : ℤ) - 30 ≤ wAcctH.date_opened →
        wAcctH.get_transaction_history 30 10 = wAcctH.transactions)) :=
  ⟨by decide, claim6_history wAcctH 30 10 (by decide)⟩

/-- Claim C9: for every account present at the start of a run with an
empty transaction list (i.e. as freshly created), after any sequence of
successful and failed operations its balance equals its initial balance
plus the sum of its DEPOSIT transaction amounts minus the sum of its
WITHDRAWAL transaction amounts. -/
theorem claim9_ledger (b : Bank) (ops : List (BankOp × OpEnv)) (n : String)
    (a0 a : BankAccount) (h0 : b.accounts n = some a0)
    (hfresh : a0.transactions = [])
    (h : (b.run ops).accounts n = some a) :
    a.balance
      = a0.balance + depositSum a.transactions - withdrawalSum a.transactions := by
  obtain ⟨a2, h2, hev⟩ := run_acct_evolves ops b n a0 h0
  rw [h] at h2
  have haa : a = a2 := Option.some.injEq a a2 ▸ h2
  subst haa
  have hdiff := hev.2.1
  have hzero : ledgerSum a0.transactions = 0 := by
    rw [hfresh]
    simp [ledgerSum, depositSum, withdrawalSum]
  rw [hzero] at hdiff
  simp only [ledgerSum] at hdiff
  linarith

theorem claim9_witness :
    wBank2.accounts "11111111" = some wAcctX ∧ wAcctX.transactions = [] ∧
    (wBank2.run wOps9).accounts "11111111" = some wAcc9 ∧
    wAcc9.balance
      = wAcctX.balance + depositSum wAcc9.transactions
        - withdrawalSum wAcc9.transactions :=
  ⟨rfl, rfl, by with_unfolding_all rfl,
    claim9_ledger wBank2 wOps9 "11111111" wAcctX wAcc9 rfl rfl
      (by with_unfolding_all rfl)⟩

/-- Claim C2: a transfer of an amount `A` with `0 < A ≤ balance X`
between two distinct stored active accounts X and Y succeeds, X ends
with `Bx - A` and exactly one new WITHDRAWAL transaction of amount `A`
appended, and Y ends with `By + A` and exactly one new DEPOSIT
transaction of amount `A` appended. -/
theorem claim2_transfer (b : Bank) (x y : String) (ax ay : BankAccount)
    (A : ℚ) (ds : String) (now : ℤ) (r1 r2 : ℕ)
    (hxy : x ≠ y) (hx : b.accounts x = some ax) (hy : b.accounts y = some ay)
    (hax : ax.is_active = true) (hay : ay.is_active = true)
    (hA0 : 0 < A) (hAb : A ≤ ax.balance) :
    (b.transfer_between_accounts x y A ds now r1 r2).2 = Except.ok true ∧
    ∃ ax2 ay2,
      (b.transfer_between_accounts x y A ds now r1 r2).1.accounts x
        = some ax2 ∧
      (b.transfer_between_accounts x y A ds now r1 r2).1.accounts y
        = some ay2 ∧
      ax2.balance = ax.balance - A ∧ ay2.balance = ay.balance + A ∧
      (∃ t, ax2.transactions = ax.transactions ++ [t] ∧
        t.transaction_type = TransactionType.withdrawal ∧ t.amount = A) ∧
      (∃ t, ay2.transactions = ay.transactions ++ [t] ∧
        t.transaction_type = TransactionType.deposit ∧ t.amount = A) := by
  have hw := withdraw_ok ax A ("Transfer to " ++ ay.account_number) now r1
    hA0 hax hAb
  have hd := deposit_ok ay A ("Transfer from " ++ ax.account_number) now r2
    hA0 hay
  unfold Bank.transfer_between_accounts
  rw [hx]
  dsimp only
  rw [hy]
  dsimp only
  rw [hw]
  dsimp only
  rw [if_neg (Ne.symm hxy), hd]
  dsimp only
  refine ⟨rfl,
    okOr (ax.withdraw A ("Transfer to " ++ ay.account_number) now r1) ax,
    okOr (ay.deposit A ("Transfer from " ++ ax.account_number) now r2) ay,
    ?_, ?_, ?_, ?_, ?_, ?_⟩
  · rw [setAccount_other _ y x _ hxy, setAccount_self, hw]
    rfl
  · rw [setAccount_self, hd]
    rfl
  · rw [hw]
    rfl
  · rw [hd]
    rfl
  · rw [hw]
    exact ⟨_, rfl, rfl, rfl⟩
  · rw [hd]
    exact ⟨_, rfl, rfl, rfl⟩

theorem claim2_witness :
    ("11111111" : String) ≠ "22222222" ∧
    wBank2.accounts "11111111" = some wAcctX ∧
    wBank2.accounts "22222222" = some wAcctY ∧
    wAcctX.is_active = true ∧ wAcctY.is_active = true ∧
    0 < (3 : ℚ) ∧ (3 : ℚ) ≤ wAcctX.balance ∧
    ((wBank2.transfer_between_accounts "11111111" "22222222" 3 "" 0 1000
        1001).2 = Except.ok true ∧
      ∃ ax2 ay2,
        (wBank2.transfer_between_accounts "11111111" "22222222" 3 "" 0 1000
            1001).1.accounts "11111111" = some ax2 ∧
        (wBank2.transfer_between_accounts "11111111" "22222222" 3 "" 0 1000
            1001).1.accounts "22222222" = some ay2 ∧
        ax2.balance = wAcctX.balance - 3 ∧ ay2.balance = wAcctY.balance + 3 ∧
        (∃ t, ax2.transactions = wAcctX.transactions ++ [t] ∧
          t.transaction_type = TransactionType.withdrawal ∧ t.amount = 3) ∧
        (∃ t, ay2.transactions = wAcctY.transactions ++ [t] ∧
          t.transaction_type = TransactionType.deposit ∧ t.amount = 3)) :=
  ⟨by decide, rfl, rfl, rfl, rfl, by decide, by decide,
    claim2_transfer wBank2 "11111111" "22222222" wAcctX wAcctY 3 "" 0 1000
      1001 (by decide) rfl rfl rfl rfl (by decide) (by decide)⟩

/-- Claim C10: a self-transfer of `0 < A ≤ balance` on a stored (active)
account is not rejected: it succeeds, leaves the balance unchanged, and
appends exactly two transactions — a WITHDRAWAL of `A` followed by a
DEPOSIT of `A` — because Python's source and destination alias the same
object. -/
theorem claim10_self_transfer (b : Bank) (x : String) (a : BankAccount)
    (A : ℚ) (ds : String) (now : ℤ) (r1 r2 : ℕ)
    (hx : b.accounts x = some a) (hact : a.is_active = true)
    (hA0 : 0 < A) (hAb : A ≤ a.balance) :
    (b.transfer_between_accounts x x A ds now r1 r2).2 = Except.ok true ∧
    ∃ a2, (b.transfer_between_accounts x x A ds now r1 r2).1.accounts x
        = some a2 ∧
      a2.balance = a.balance ∧
      ∃ tw td, a2.transactions = a.transactions ++ [tw, td] ∧
        tw.transaction_type = TransactionType.withdrawal ∧ tw.amount = A ∧
        td.transaction_type = TransactionType.deposit ∧ td.amount = A := by
  have hw := withdraw_ok a A ("Transfer to " ++ a.account_number) now r1
    hA0 hact hAb
  have hd := deposit_ok
    { a with
      balance := a.balance - A,
      transactions := a.transactions ++
        [mkTransaction (generate_transaction_id now r1) a.account_number
          TransactionType.withdrawal A ("Transfer to " ++ a.account_number)
          now] }
    A ("Transfer from " ++ a.account_number) now r2 hA0 hact
  unfold Bank.transfer_between_accounts
  rw [hx]
  dsimp only
  rw [hw]
  dsimp only
  rw [if_pos rfl, hd]
  dsimp only
  refine ⟨rfl, _, setAccount_self _ _ _, ?_, ?_⟩
  · show a.balance - A + A = a.balance
    ring
  · exact ⟨mkTransaction (generate_transaction_id now r1) a.account_number
        TransactionType.withdrawal A ("Transfer to " ++ a.account_number) now,
      mkTransaction (generate_transaction_id now r2) a.account_number
        TransactionType.deposit A ("Transfer from " ++ a.account_number) now,
      by simp, rfl, rfl, rfl, rfl⟩

theorem claim10_witness :
    wBank2.accounts "11111111" = some wAcctX ∧ wAcctX.is_active = true ∧
    0 < (4 : ℚ) ∧ (4 : ℚ) ≤ wAcctX.balance ∧
    ((wBank2.transfer_between_accounts "11111111" "11111111" 4 "" 0 1000
        1001).2 = Except.ok true ∧
      ∃ a2, (wBank2.transfer_between_accounts "11111111" "11111111" 4 "" 0
            1000 1001).1.accounts "11111111" = some a2 ∧
        a2.balance = wAcctX.balance ∧
        ∃ tw td, a2.transactions = wAcctX.transactions ++ [tw, td] ∧
          tw.transaction_type = TransactionType.withdrawal ∧ tw.amount = 4 ∧
          td.transaction_type = TransactionType.deposit ∧ td.amount = 4) :=
  ⟨rfl, rfl, by decide, by decide,
    claim10_self_transfer wBank2 "11111111" wAcctX 4 "" 0 1000 1001 rfl rfl
      (by decide) (by decide)⟩

/-- Claim C7: `create_account` fails with the "Initial deposit cannot be
negative" `ValueError` when the initial deposit is negative, leaving the
bank's maps unchanged (the bank step is the identity); for a
non-negative initial deposit, whenever the number generator yields a
number, it returns a created account that is stored in the bank under
its account number, whose balance is the initial deposit and whose
transaction list is empty (so creating with deposit 100 and retrieving
yields balance 100 and no transactions). -/
theorem claim7_create_account (b : Bank) (p : Person) (ty : AccountType)
    (d : ℚ) :
    (d < 0 →
      (∀ (now : ℤ) (draws : ℕ → ℕ) (fuel : ℕ),
        b.create_account p ty d now draws fuel
          = CreateResult.validationErr "Initial deposit cannot be negative") ∧
      ∀ env : OpEnv, b.step (BankOp.createOp p ty d) env = b) ∧
    (0 ≤ d →
      ∀ (now : ℤ) (draws : ℕ → ℕ) (fuel : ℕ) (num : String),
        b.generate_account_number draws fuel = some num →
        ∃ b2 acct, b.create_account p ty d now draws fuel
            = CreateResult.created b2 acct ∧
          b2.accounts acct.account_number = some acct ∧
          acct.balance = d ∧ acct.transactions = []) := by
  constructor
  · intro hneg
    have hval : ∀ (now : ℤ) (draws : ℕ → ℕ) (fuel : ℕ),
        b.create_account p ty d now draws fuel
          = CreateResult.validationErr "Initial deposit cannot be negative" := by
      intro now draws fuel
      unfold Bank.create_account
      rw [if_pos hneg]
    refine ⟨hval, ?_⟩
    intro env
    unfold Bank.step
    dsimp only
    rw [hval env.now env.draws env.fuel]
  · intro hge now draws fuel num hgen
    unfold Bank.create_account
    rw [if_neg (not_lt.2 hge), hgen]
    dsimp only
    refine ⟨_, _, rfl, ?_, rfl, rfl⟩
    simp [mkBankAccount]

theorem claim7_witness :
    ((-1 : ℚ) < 0 ∧
      wBank0.create_account wPerson AccountType.savings (-1) 0
          (fun _ => 12345678) 1
        = CreateResult.validationErr "Initial deposit cannot be negative" ∧
      wBank0.step (BankOp.createOp wPerson AccountType.savings (-1)) wEnv
        = wBank0) ∧
    (0 ≤ (100 : ℚ) ∧
      wBank0.generate_account_number (fun _ => 12345678) 1 = some "12345678" ∧
      ∃ b2 acct,
        wBank0.create_account wPerson AccountType.savings 100 0
            (fun _ => 12345678) 1 = CreateResult.created b2 acct ∧
        b2.accounts acct.account_number = some acct ∧
        acct.balance = 100 ∧ acct.transactions = []) :=
  ⟨⟨by decide,
    ((claim7_create_account wBank0 wPerson AccountType.savings (-1)).1
      (by decide)).1 0 (fun _ => 12345678) 1,
    ((claim7_create_account wBank0 wPerson AccountType.savings (-1)).1
      (by decide)).2 wEnv⟩,
   ⟨by decide, rfl,
    (claim7_create_account wBank0 wPerson AccountType.savings 100).2
      (by decide) 0 (fun _ => 12345678) 1 "12345678" rfl⟩⟩

/-- Claim C8: a generated account number is always the decimal string of
one of the 8-digit draws (so it has length 8) and is never already a key
of the accounts map — the generator skips used draws; consequently two
back-to-back account creations always return distinct account numbers. -/
theorem claim8_account_numbers :
    (∀ (b : Bank) (draws : ℕ → ℕ) (fuel : ℕ) (s : String),
      b.generate_account_number draws fuel = some s →
      (∀ i, 10000000 ≤ draws i ∧ draws i ≤ 99999999) →
      b.accounts s = none ∧ s.length = 8 ∧
        ∃ m, s = Nat.repr m ∧ 10000000 ≤ m ∧ m ≤ 99999999) ∧
    (∀ (b b1 b2 : Bank) (p1 p2 : Person) (ty1 ty2 : AccountType)
        (d1 d2 : ℚ) (now1 now2 : ℤ) (draws1 draws2 : ℕ → ℕ)
        (fuel1 fuel2 : ℕ) (a1 a2 : BankAccount),
      b.create_account p1 ty1 d1 now1 draws1 fuel1
        = CreateResult.created b1 a1 →
      b1.create_account p2 ty2 d2 now2 draws2 fuel2
        = CreateResult.created b2 a2 →
      a1.account_number ≠ a2.account_number) := by
  constructor
  · intro b draws fuel s hgen hrange
    obtain ⟨hfresh, j, hj⟩ := generate_account_number_spec b draws fuel s hgen
    subst hj
    exact ⟨hfresh,
      repr_len_eight (draws j) (hrange j).1 (hrange j).2,
      draws j, rfl, (hrange j).1, (hrange j).2⟩
  · intro b b1 b2 p1 p2 ty1 ty2 d1 d2 now1 now2 draws1 draws2 fuel1 fuel2
      a1 a2 h1 h2 heq
    obtain ⟨-, -, -, hstored, -, -⟩ := create_account_created h1
    obtain ⟨-, -, hfresh2, -, -, -⟩ := create_account_created h2
    rw [heq, hfresh2] at hstored
    cases hstored

theorem claim8_witness :
    (wBank0.generate_account_number (fun _ => 12345678) 1 = some "12345678" ∧
      (∀ i : ℕ, 10000000 ≤ (fun _ => 12345678) i ∧
        (fun _ => 12345678) i ≤ 99999999) ∧
      wBank0.accounts "12345678" = none ∧ ("12345678" : String).length = 8 ∧
      ∃ m, ("12345678" : String) = Nat.repr m ∧
        10000000 ≤ m ∧ m ≤ 99999999) ∧
    ((wBank0.create_account wPerson AccountType.savings 100 0
          (fun _ => 11111111) 1
        = CreateResult.created
            (cbank (wBank0.create_account wPerson AccountType.savings 100 0
              (fun _ => 11111111) 1) wBank0)
            (cacct (wBank0.create_account wPerson AccountType.savings 100 0
              (fun _ => 11111111) 1) wAcctX)) ∧
      ((cbank (wBank0.create_account wPerson AccountType.savings 100 0
          (fun _ => 11111111) 1) wBank0).create_account wPerson
            AccountType.checking 50 0 (fun _ => 22222222) 1
        = CreateResult.created
            (cbank ((cbank (wBank0.create_account wPerson AccountType.savings
              100 0 (fun _ => 11111111) 1) wBank0).create_account wPerson
                AccountType.checking 50 0 (fun _ => 22222222) 1)
              wBank0)
            (cacct ((cbank (wBank0.create_account wPerson AccountType.savings
              100 0 (fun _ => 11111111) 1) wBank0).create_account wPerson
                AccountType.checking 50 0 (fun _ => 22222222) 1)
              wAcctX)) ∧
      (cacct (wBank0.create_account wPerson AccountType.savings 100 0
          (fun _ => 11111111) 1) wAcctX).account_number ≠
        (cacct ((cbank (wBank0.create_account wPerson AccountType.savings
          100 0 (fun _ => 11111111) 1) wBank0).create_account wPerson
            AccountType.checking 50 0 (fun _ => 22222222) 1)
          wAcctX).account_number) := by
  refine ⟨⟨rfl, fun i => ⟨by norm_num, by norm_num⟩, ?_⟩, ?_⟩
  · exact (claim8_account_numbers.1 wBank0 (fun _ => 12345678) 1 "12345678"
      rfl (fun i => ⟨by norm_num, by norm_num⟩))
  · refine ⟨by with_unfolding_all rfl, by with_unfolding_all rfl, ?_⟩
    exact claim8_account_numbers.2 wBank0 _ _ wPerson wPerson
      AccountType.savings AccountType.checking 100 50 0 0
      (fun _ => 11111111) (fun _ => 22222222) 1 1 _ _
      (by with_unfolding_all rfl) (by with_unfolding_all rfl)

end Banking
